import Mathlib

/-!
# ModelPhy VS Code extension: the language-server launcher

A shallow embedding of `modelphy-vscode/extension.js`.  The module has one
mutable variable (`client`) and two entry points (`activate`, `deactivate`).
Everything the entry points touch outside the module (the settings store,
the file system, the `path` module, the language-client objects, the
console) is made explicit: read-only collaborators are fields of `Host`,
mutable ones are fields of `World`, and each entry point is a function from
the state before the call to its return value and the state after it.
-/

namespace ModelPhy

/-! ## Values and objects -/

/-- References to `LanguageClient` objects: the position of the object in
`World.clients`, in order of construction. -/
abbrev ClientRef := Nat

/-- References to file-system watchers: the position in `World.watchers`. -/
abbrev WatcherRef := Nat

/-- The JavaScript values that the two entry points return or store:
`undefined`, the value returned by a call of `client.start()` and the value
returned by a call of `client.stop()`.  A call is identified by the client
it was made on and by the number of earlier calls of the same method on the
same client. -/
inductive JsValue where
  | undefined
  | startResult (client : ClientRef) (call : Nat)
  | stopResult (client : ClientRef) (call : Nat)
  deriving DecidableEq, Repr

/-- The members of `TransportKind` in `vscode-languageclient/node`. -/
inductive TransportKind where
  | stdio
  | ipc
  | pipe
  | socket
  deriving DecidableEq, Repr

/-- One of the two launch descriptions of `serverOptions`
(`command`, `args`, `options.cwd`, `transport`). -/
structure Executable where
  command : String
  args : List String
  cwd : String
  transport : TransportKind
  deriving DecidableEq, Repr

/-- The object literal `serverOptions` of `activate`. -/
structure ServerOptions where
  run : Executable
  debug : Executable
  deriving DecidableEq, Repr

/-- One entry of `documentSelector`. -/
structure DocumentFilter where
  scheme : String
  language : String
  deriving DecidableEq, Repr

/-- The object literal `clientOptions` of `activate`; `fileEvents` is
`synchronize.fileEvents`. -/
structure ClientOptions where
  documentSelector : List DocumentFilter
  fileEvents : WatcherRef
  deriving DecidableEq, Repr

/-- The four constructor arguments of `new LanguageClient(...)`. -/
structure LanguageClient where
  id : String
  name : String
  serverOptions : ServerOptions
  clientOptions : ClientOptions
  deriving DecidableEq, Repr

/-- Method calls made on language-client objects. -/
inductive Call where
  | start (client : ClientRef)
  | stop (client : ClientRef)
  deriving DecidableEq, Repr

/-- One argument of a `console.log` call. -/
inductive LogArg where
  | str (s : String)
  | bool (b : Bool)
  deriving DecidableEq, Repr

/-! ## Collaborators -/

/-- The two functions of Node's `path` module that the extension calls. -/
structure PathModule where
  join : String → String → String
  dirname : String → String

/-- The read-only collaborators of an activation.
`getConfiguration section key` is
`workspace.getConfiguration(section).get(key)` for a string setting:
`none` is `undefined` (the setting is absent).
`existsSync` is `fs.existsSync`. -/
structure Host where
  getConfiguration : String → String → Option String
  existsSync : String → Bool
  path : PathModule

/-- The `ExtensionContext` handed to `activate`: its `asAbsolutePath` method
and its `subscriptions` array. -/
structure ExtensionContext where
  asAbsolutePath : String → String
  subscriptions : List JsValue

/-- The mutable state.  `client` is the module-level `let client;`
(`none` is `undefined`), `clients` the language clients constructed so far,
`calls` the `start`/`stop` calls made on them, `watchers` the glob patterns
of the file-system watchers created so far, `console` the `console.log`
calls, each with its arguments. -/
structure World where
  client : Option ClientRef
  clients : List LanguageClient
  calls : List Call
  watchers : List String
  console : List (List LogArg)
  deriving DecidableEq, Repr

/-- The state right after the module is loaded: `client` is `undefined` and
nothing has happened. -/
def World.fresh : World :=
  { client := none, clients := [], calls := [], watchers := [], console := [] }

/-- What a call of `activate` leaves behind: its return value, the context
(whose `subscriptions` array it mutates) and the state. -/
structure Activation where
  returned : JsValue
  context : ExtensionContext
  world : World

/-! ## Node's `path.dirname` (POSIX flavour)

`path` belongs to the Node runtime, not to the extension, so `activate`
takes it from the `Host`.  The concrete scenario of the working-directory
claim needs an actual `dirname`; this is the POSIX algorithm of Node's
`lib/path.js`. -/

/-- The backward scan of `posix.dirname`: `i` runs from `path.length - 1`
down to `1`; the result is the value of `end` (`none` for `-1`). -/
def dirnameScan (cs : List Char) : Nat → Bool → Option Nat
  | 0, _ => none
  | i + 1, matchedSlash =>
    if cs.getD (i + 1) ' ' = '/' then
      if !matchedSlash then some (i + 1) else dirnameScan cs i matchedSlash
    else
      dirnameScan cs i false

/-- Modelled from the spec: `path.dirname` is a function of the Node runtime
and is not in the repository; the specification calls its result the
directory containing the path.  This is `path.posix.dirname` of Node's
`lib/path.js`: `.` for the empty path, otherwise the path up to the last
slash that is followed by a non-slash character (trailing slashes are
skipped), with `/`, `.` and `//` for the paths that have no such slash
after position `0` or have it at position `1` of a rooted path. -/
def posixDirname (path : String) : String :=
  let cs := path.toList
  if cs.length = 0 then "."
  else
    let hasRoot : Bool := cs.getD 0 ' ' = '/'
    match dirnameScan cs (cs.length - 1) true with
    | none => if hasRoot then "/" else "."
    | some e => if hasRoot && e = 1 then "//" else String.mk (cs.take e)

/-! ## The extension -/

/-- Lines 9-15 of `activate`: the value of the local `serverPath` once the
fallback has run.  `!serverPath` holds for `undefined` and for the empty
string. -/
def serverPath (host : Host) (context : ExtensionContext) : String :=
  match host.getConfiguration "modelphy" "server.path" with
  | some s =>
    if s = "" then
      context.asAbsolutePath (host.path.join "server" "modelphy-lsp-server.jar")
    else s
  | none => context.asAbsolutePath (host.path.join "server" "modelphy-lsp-server.jar")

/-- Lines 22-35 of `activate`: the object literal `serverOptions`. -/
def serverOptions (host : Host) (serverPath : String) : ServerOptions :=
  { run :=
      { command := "java"
        args := ["-jar", serverPath]
        cwd := host.path.dirname serverPath
        transport := TransportKind.stdio }
    debug :=
      { command := "java"
        args := ["-jar", serverPath, "--debug"]
        cwd := host.path.dirname serverPath
        transport := TransportKind.stdio } }

/-- Number of earlier calls in `calls` equal to `c`. -/
def callCount (calls : List Call) (c : Call) : Nat :=
  calls.count c

/-- The function `activate(context)`. -/
def activate (host : Host) (context : ExtensionContext) (w : World) : Activation :=
  -- lines 9-15
  let serverPath := serverPath host context
  -- lines 17-19
  let w1 : World :=
    { w with console := w.console ++
        [[LogArg.str "Server path:", LogArg.str serverPath],
         [LogArg.str "Server file exists:", LogArg.bool (host.existsSync serverPath)]] }
  -- lines 22-35
  let serverOptions := serverOptions host serverPath
  -- lines 38-44: `workspace.createFileSystemWatcher` makes a new watcher
  let watcher : WatcherRef := w1.watchers.length
  let w2 : World := { w1 with watchers := w1.watchers ++ ["**/*.mphy"] }
  let clientOptions : ClientOptions :=
    { documentSelector := [{ scheme := "file", language := "modelphy" }]
      fileEvents := watcher }
  -- lines 47-52: the new object is stored in the module variable
  let ref : ClientRef := w2.clients.length
  let w3 : World :=
    { w2 with
      clients := w2.clients ++
        [{ id := "modelphy", name := "ModelPhy Language Server",
           serverOptions := serverOptions, clientOptions := clientOptions }]
      client := some ref }
  -- line 55
  let disposable := JsValue.startResult ref (callCount w3.calls (Call.start ref))
  let w4 : World := { w3 with calls := w3.calls ++ [Call.start ref] }
  -- line 56
  let context1 : ExtensionContext :=
    { context with subscriptions := context.subscriptions ++ [disposable] }
  -- line 58
  let w5 : World :=
    { w4 with console := w4.console ++ [[LogArg.str "ModelPhy language server started"]] }
  -- no `return` statement
  { returned := JsValue.undefined, context := context1, world := w5 }

/-- The function `deactivate()`. -/
def deactivate (w : World) : JsValue × World :=
  match w.client with
  | none => (JsValue.undefined, w)
  | some ref =>
    (JsValue.stopResult ref (callCount w.calls (Call.stop ref)),
     { w with calls := w.calls ++ [Call.stop ref] })

/-! ## Test doubles -/

/-- A `path` module for POSIX hosts: `dirname` is `posixDirname`; `join`
glues two segments with a slash, which is what `path.join` does on two
plain file names. -/
def posixPath : PathModule :=
  { join := fun a b => a ++ "/" ++ b, dirname := posixDirname }

/-- A host with the given `server.path` setting of section `modelphy` (no
other setting), the given answer of `fs.existsSync` and the POSIX `path`. -/
def hostWith (setting : Option String) (fileExists : Bool) : Host :=
  { getConfiguration := fun sect key =>
      if sect = "modelphy" ∧ key = "server.path" then setting else none
    existsSync := fun _ => fileExists
    path := posixPath }

/-- The context of an extension installed in directory `dir`, with nothing
subscribed yet. -/
def contextAt (dir : String) : ExtensionContext :=
  { asAbsolutePath := fun rel => dir ++ "/" ++ rel, subscriptions := [] }

/-! ## What one call of `activate` does

Each component of the result of `activate`, written out.  All of them hold
by unfolding the definition. -/

/-- The language client that `activate` constructs on `host` and `context`
when `watchers` file-system watchers exist already. -/
def constructed (host : Host) (context : ExtensionContext) (watchers : Nat) : LanguageClient :=
  { id := "modelphy"
    name := "ModelPhy Language Server"
    serverOptions := serverOptions host (serverPath host context)
    clientOptions :=
      { documentSelector := [{ scheme := "file", language := "modelphy" }]
        fileEvents := watchers } }

theorem activate_returned (host : Host) (context : ExtensionContext) (w : World) :
    (activate host context w).returned = JsValue.undefined := rfl

theorem activate_client (host : Host) (context : ExtensionContext) (w : World) :
    (activate host context w).world.client = some w.clients.length := rfl

theorem activate_clients (host : Host) (context : ExtensionContext) (w : World) :
    (activate host context w).world.clients =
      w.clients ++ [constructed host context w.watchers.length] := rfl

theorem activate_calls (host : Host) (context : ExtensionContext) (w : World) :
    (activate host context w).world.calls = w.calls ++ [Call.start w.clients.length] := rfl

theorem activate_watchers (host : Host) (context : ExtensionContext) (w : World) :
    (activate host context w).world.watchers = w.watchers ++ ["**/*.mphy"] := rfl

theorem activate_console (host : Host) (context : ExtensionContext) (w : World) :
    (activate host context w).world.console =
      w.console ++
        [[LogArg.str "Server path:", LogArg.str (serverPath host context)],
         [LogArg.str "Server file exists:",
          LogArg.bool (host.existsSync (serverPath host context))]] ++
        [[LogArg.str "ModelPhy language server started"]] := rfl

theorem activate_subscriptions (host : Host) (context : ExtensionContext) (w : World) :
    (activate host context w).context.subscriptions =
      context.subscriptions ++
        [JsValue.startResult w.clients.length (callCount w.calls (Call.start w.clients.length))] :=
  rfl

theorem activate_asAbsolutePath (host : Host) (context : ExtensionContext) (w : World) :
    (activate host context w).context.asAbsolutePath = context.asAbsolutePath := rfl

theorem serverPath_of_override (host : Host) (context : ExtensionContext) (s : String)
    (hs : host.getConfiguration "modelphy" "server.path" = some s) (hne : s ≠ "") :
    serverPath host context = s := by
  simp [serverPath, hs, hne]

theorem serverPath_of_missing (host : Host) (context : ExtensionContext)
    (hs : host.getConfiguration "modelphy" "server.path" = none ∨
      host.getConfiguration "modelphy" "server.path" = some "") :
    serverPath host context =
      context.asAbsolutePath (host.path.join "server" "modelphy-lsp-server.jar") := by
  rcases hs with hs | hs <;> simp [serverPath, hs]

theorem deactivate_of_client (w : World) (ref : ClientRef) (h : w.client = some ref) :
    deactivate w =
      (JsValue.stopResult ref (callCount w.calls (Call.stop ref)),
       { w with calls := w.calls ++ [Call.stop ref] }) := by
  simp [deactivate, h]

theorem callCount_snoc_self (calls : List Call) (c : Call) :
    callCount (calls ++ [c]) c = callCount calls c + 1 := by
  simp [callCount, List.count_append]

theorem callCount_snoc_start_succ (calls : List Call) (a : ClientRef) :
    callCount (calls ++ [Call.start a]) (Call.start (a + 1)) =
      callCount calls (Call.start (a + 1)) := by
  simp [callCount, List.count_append]

theorem callCount_snoc_start_stop (calls : List Call) (a b : ClientRef) :
    callCount (calls ++ [Call.start a]) (Call.stop b) = callCount calls (Call.stop b) := by
  simp [callCount, List.count_append]

theorem lookup_append_pair_fst (l : List LanguageClient) (a b : LanguageClient) :
    (l ++ [a, b]).get? l.length = some a := by
  induction l with
  | nil => rfl
  | cons x xs ih => simpa using ih

theorem lookup_append_pair_snd (l : List LanguageClient) (a b : LanguageClient) :
    (l ++ [a, b]).get? (l.length + 1) = some b := by
  induction l with
  | nil => rfl
  | cons x xs ih => simpa using ih

theorem posixDirname_bundled :
    posixDirname "/ext/server/modelphy-lsp-server.jar" = "/ext/server" := by decide

/-! ## The claims -/

/-- C1: the server path that `activate` puts in the launch arguments is the
`server.path` setting of section `modelphy`, verbatim, when that setting is
present and non-empty, and otherwise the bundled default
`context.asAbsolutePath(path.join('server', 'modelphy-lsp-server.jar'))`. -/
theorem effective_server_path (host : Host) (context : ExtensionContext) (w : World) :
    (∀ s : String, host.getConfiguration "modelphy" "server.path" = some s → s ≠ "" →
      ∃ c : LanguageClient, (activate host context w).world.clients = w.clients ++ [c] ∧
        c.serverOptions.run.args = ["-jar", s] ∧
        c.serverOptions.debug.args = ["-jar", s, "--debug"]) ∧
    (host.getConfiguration "modelphy" "server.path" = none ∨
        host.getConfiguration "modelphy" "server.path" = some "" →
      ∃ c : LanguageClient, (activate host context w).world.clients = w.clients ++ [c] ∧
        c.serverOptions.run.args =
          ["-jar", context.asAbsolutePath (host.path.join "server" "modelphy-lsp-server.jar")] ∧
        c.serverOptions.debug.args =
          ["-jar", context.asAbsolutePath (host.path.join "server" "modelphy-lsp-server.jar"),
           "--debug"]) := by
  constructor
  · intro s hs hne
    refine ⟨constructed host context w.watchers.length, activate_clients host context w, ?_, ?_⟩
    · simp [constructed, serverOptions, serverPath_of_override host context s hs hne]
    · simp [constructed, serverOptions, serverPath_of_override host context s hs hne]
  · intro hs
    refine ⟨constructed host context w.watchers.length, activate_clients host context w, ?_, ?_⟩
    · simp [constructed, serverOptions, serverPath_of_missing host context hs]
    · simp [constructed, serverOptions, serverPath_of_missing host context hs]

/-- Witness for C1: an override `/opt/my server/../lsp.jar` is used as it
is, and an empty override gives the bundled jar of the extension in
`/ext`. -/
theorem effective_server_path_witness :
    (∃ c : LanguageClient,
      (activate (hostWith (some "/opt/my server/../lsp.jar") false) (contextAt "/ext")
          World.fresh).world.clients = World.fresh.clients ++ [c] ∧
        c.serverOptions.run.args = ["-jar", "/opt/my server/../lsp.jar"] ∧
        c.serverOptions.debug.args = ["-jar", "/opt/my server/../lsp.jar", "--debug"]) ∧
    (∃ c : LanguageClient,
      (activate (hostWith (some "") true) (contextAt "/ext") World.fresh).world.clients =
          World.fresh.clients ++ [c] ∧
        c.serverOptions.run.args = ["-jar", "/ext/server/modelphy-lsp-server.jar"] ∧
        c.serverOptions.debug.args =
          ["-jar", "/ext/server/modelphy-lsp-server.jar", "--debug"]) :=
  ⟨(effective_server_path (hostWith (some "/opt/my server/../lsp.jar") false) (contextAt "/ext")
      World.fresh).1 "/opt/my server/../lsp.jar" (by decide) (by decide),
   (effective_server_path (hostWith (some "") true) (contextAt "/ext") World.fresh).2
      (Or.inr (by decide))⟩

/-- C2: for every resolved server path `p` the server options have, in run
mode, command `java` with arguments exactly `["-jar", p]` and, in debug
mode, command `java` with arguments exactly `["-jar", p, "--debug"]` (the
run arguments followed by one `--debug`); both modes use the stdio
transport; and these are the server options of the client that `activate`
constructs, at the server path it resolved. -/
theorem process_invocation_surface (host : Host) (context : ExtensionContext) (w : World)
    (p : String) :
    (serverOptions host p).run.command = "java" ∧
    (serverOptions host p).run.args = ["-jar", p] ∧
    (serverOptions host p).run.transport = TransportKind.stdio ∧
    (serverOptions host p).debug.command = "java" ∧
    (serverOptions host p).debug.args = ["-jar", p, "--debug"] ∧
    (serverOptions host p).debug.args = (serverOptions host p).run.args ++ ["--debug"] ∧
    (serverOptions host p).debug.transport = TransportKind.stdio ∧
    ∃ c : LanguageClient, (activate host context w).world.clients = w.clients ++ [c] ∧
      c.serverOptions = serverOptions host (serverPath host context) :=
  ⟨rfl, rfl, rfl, rfl, rfl, rfl, rfl,
    constructed host context w.watchers.length, activate_clients host context w, rfl⟩

/-- C3: the working directory of the run and of the debug configuration
is `path.dirname` of the resolved server path, override or bundled; and on
a host whose `path.dirname` is the POSIX one, with an absent or empty
override and the bundled path `/ext/server/modelphy-lsp-server.jar`, the
run configuration is `java -jar /ext/server/modelphy-lsp-server.jar` with
working directory `/ext/server`. -/
theorem working_directory (host : Host) (context : ExtensionContext) (w : World) :
    (∃ c : LanguageClient, (activate host context w).world.clients = w.clients ++ [c] ∧
      c.serverOptions.run.args = ["-jar", serverPath host context] ∧
      c.serverOptions.run.cwd = host.path.dirname (serverPath host context) ∧
      c.serverOptions.debug.args = ["-jar", serverPath host context, "--debug"] ∧
      c.serverOptions.debug.cwd = host.path.dirname (serverPath host context)) ∧
    (host.path.dirname = posixDirname →
      (host.getConfiguration "modelphy" "server.path" = none ∨
        host.getConfiguration "modelphy" "server.path" = some "") →
      context.asAbsolutePath (host.path.join "server" "modelphy-lsp-server.jar") =
        "/ext/server/modelphy-lsp-server.jar" →
      ∃ c : LanguageClient, (activate host context w).world.clients = w.clients ++ [c] ∧
        c.serverOptions.run =
          { command := "java"
            args := ["-jar", "/ext/server/modelphy-lsp-server.jar"]
            cwd := "/ext/server"
            transport := TransportKind.stdio } ∧
        c.serverOptions.debug.cwd = "/ext/server") := by
  refine ⟨⟨constructed host context w.watchers.length, activate_clients host context w,
    rfl, rfl, rfl, rfl⟩, ?_⟩
  intro hdir hs hbundled
  refine ⟨constructed host context w.watchers.length, activate_clients host context w, ?_, ?_⟩
  · simp [constructed, serverOptions, serverPath_of_missing host context hs, hbundled, hdir,
      posixDirname_bundled]
  · simp [constructed, serverOptions, serverPath_of_missing host context hs, hbundled, hdir,
      posixDirname_bundled]

/-- Witness for C3: the scenario of the specification, an empty override
on the extension installed in `/ext`. -/
theorem working_directory_witness :
    ∃ c : LanguageClient,
      (activate (hostWith (some "") true) (contextAt "/ext") World.fresh).world.clients =
          World.fresh.clients ++ [c] ∧
        c.serverOptions.run =
          { command := "java"
            args := ["-jar", "/ext/server/modelphy-lsp-server.jar"]
            cwd := "/ext/server"
            transport := TransportKind.stdio } ∧
        c.serverOptions.debug.cwd = "/ext/server" :=
  (working_directory (hostWith (some "") true) (contextAt "/ext") World.fresh).2
    rfl (Or.inr (by decide)) (by decide)

/-- C4: when the module variable `client` is still `undefined` (no
`activate` has run), `deactivate` returns `undefined` and changes nothing,
so it requests no stop; after an `activate`, `deactivate` makes exactly one
call, `stop` on the client that this `activate` constructed, and returns
the value of that call. -/
theorem deactivate_contract (host : Host) (context : ExtensionContext) (w : World) :
    (w.client = none → deactivate w = (JsValue.undefined, w)) ∧
    (deactivate (activate host context w).world).2.calls =
      (activate host context w).world.calls ++ [Call.stop w.clients.length] ∧
    (deactivate (activate host context w).world).1 =
      JsValue.stopResult w.clients.length
        (callCount (activate host context w).world.calls (Call.stop w.clients.length)) ∧
    (activate host context w).world.clients.get? w.clients.length =
      some (constructed host context w.watchers.length) := by
  refine ⟨?_, ?_, ?_, ?_⟩
  · intro h
    simp [deactivate, h]
  · rw [deactivate_of_client _ _ (activate_client host context w)]
  · rw [deactivate_of_client _ _ (activate_client host context w)]
  · simp [activate_clients]

/-- Witness for C4: on the freshly loaded module `deactivate` returns
`undefined` and leaves the state alone. -/
theorem deactivate_contract_witness :
    deactivate World.fresh = (JsValue.undefined, World.fresh) :=
  (deactivate_contract (hostWith none true) (contextAt "/ext") World.fresh).1 rfl

/-- C5, as the code has it: `activate` has no `return` statement, so it
returns `undefined`; it constructs exactly one client, stores it in the
module variable, calls `start` once, on that client, and appends the value
of that call to `context.subscriptions`. -/
theorem activate_registers_handle (host : Host) (context : ExtensionContext) (w : World) :
    (activate host context w).returned = JsValue.undefined ∧
    (activate host context w).world.clients =
      w.clients ++ [constructed host context w.watchers.length] ∧
    (activate host context w).world.clients.get? w.clients.length =
      some (constructed host context w.watchers.length) ∧
    (activate host context w).world.client = some w.clients.length ∧
    (activate host context w).world.calls = w.calls ++ [Call.start w.clients.length] ∧
    (activate host context w).context.subscriptions =
      context.subscriptions ++
        [JsValue.startResult w.clients.length
          (callCount w.calls (Call.start w.clients.length))] := by
  refine ⟨rfl, rfl, ?_, rfl, rfl, rfl⟩
  simp [activate_clients]

/-- C5 fails as stated: activating the extension installed in `/ext` on the
freshly loaded module starts client `0`, and the value of that `start` call
is in `context.subscriptions`, but what `activate` returns is `undefined`,
not that value. -/
theorem activate_returns_no_handle :
    (activate (hostWith none true) (contextAt "/ext") World.fresh).world.clients.length = 1 ∧
    (activate (hostWith none true) (contextAt "/ext") World.fresh).world.client = some 0 ∧
    (activate (hostWith none true) (contextAt "/ext") World.fresh).world.calls = [Call.start 0] ∧
    (activate (hostWith none true) (contextAt "/ext") World.fresh).context.subscriptions =
      [JsValue.startResult 0 0] ∧
    (activate (hostWith none true) (contextAt "/ext") World.fresh).returned = JsValue.undefined ∧
    (activate (hostWith none true) (contextAt "/ext") World.fresh).returned ≠
      JsValue.startResult 0 0 := by
  decide

/-- C6: the answer of `fs.existsSync` reaches the console and nothing else.
Whatever the existence check `exists1` answers in place of the host's own,
`activate` returns normally (`undefined`), constructs the same client with
the same server options (command, arguments, working directory, transport),
starts it, stores it in the module variable, creates the same watcher and
subscribes the same handle; the console gets the same three lines except
for the boolean printed after `Server file exists:`. -/
theorem existence_check_is_diagnostic (host : Host) (exists1 : String → Bool)
    (context : ExtensionContext) (w : World) :
    (activate { host with existsSync := exists1 } context w).returned = JsValue.undefined ∧
    (activate { host with existsSync := exists1 } context w).returned =
      (activate host context w).returned ∧
    (activate { host with existsSync := exists1 } context w).world.clients =
      w.clients ++ [constructed host context w.watchers.length] ∧
    (constructed host context w.watchers.length).serverOptions =
      serverOptions host (serverPath host context) ∧
    (activate { host with existsSync := exists1 } context w).world.clients =
      (activate host context w).world.clients ∧
    (activate { host with existsSync := exists1 } context w).world.calls =
      w.calls ++ [Call.start w.clients.length] ∧
    (activate { host with existsSync := exists1 } context w).world.calls =
      (activate host context w).world.calls ∧
    (activate { host with existsSync := exists1 } context w).world.client =
      (activate host context w).world.client ∧
    (activate { host with existsSync := exists1 } context w).world.watchers =
      (activate host context w).world.watchers ∧
    (activate { host with existsSync := exists1 } context w).context.subscriptions =
      (activate host context w).context.subscriptions ∧
    (activate { host with existsSync := exists1 } context w).world.console =
      w.console ++
        [[LogArg.str "Server path:", LogArg.str (serverPath host context)],
         [LogArg.str "Server file exists:", LogArg.bool (exists1 (serverPath host context))],
         [LogArg.str "ModelPhy language server started"]] := by
  refine ⟨rfl, rfl, rfl, rfl, rfl, rfl, rfl, rfl, rfl, rfl, ?_⟩
  rw [activate_console]
  simp
  exact ⟨rfl, rfl⟩

/-- C7, as the code has it: with no usable override and the bundled jar
absent, `activate` still returns normally, logs the bundled path and
`Server file exists: false`, and constructs and starts a client whose
launch arguments name the bundled path.  Nothing in `activate` reports the
missing file as an error. -/
theorem missing_bundle_still_starts (host : Host) (context : ExtensionContext) (w : World)
    (hs : host.getConfiguration "modelphy" "server.path" = none ∨
      host.getConfiguration "modelphy" "server.path" = some "")
    (hmissing : host.existsSync
      (context.asAbsolutePath (host.path.join "server" "modelphy-lsp-server.jar")) = false) :
    (activate host context w).returned = JsValue.undefined ∧
    (∃ c : LanguageClient, (activate host context w).world.clients = w.clients ++ [c] ∧
      c.serverOptions.run.args =
        ["-jar", context.asAbsolutePath (host.path.join "server" "modelphy-lsp-server.jar")] ∧
      c.serverOptions.debug.args =
        ["-jar", context.asAbsolutePath (host.path.join "server" "modelphy-lsp-server.jar"),
         "--debug"]) ∧
    (activate host context w).world.client = some w.clients.length ∧
    (activate host context w).world.calls = w.calls ++ [Call.start w.clients.length] ∧
    (activate host context w).world.console =
      w.console ++
        [[LogArg.str "Server path:",
          LogArg.str (context.asAbsolutePath (host.path.join "server" "modelphy-lsp-server.jar"))],
         [LogArg.str "Server file exists:", LogArg.bool false],
         [LogArg.str "ModelPhy language server started"]] := by
  have hp := serverPath_of_missing host context hs
  refine ⟨rfl, ⟨constructed host context w.watchers.length, activate_clients host context w,
    ?_, ?_⟩, rfl, rfl, ?_⟩
  · simp [constructed, serverOptions, hp]
  · simp [constructed, serverOptions, hp]
  · rw [activate_console, hp, hmissing]
    simp

/-- Witness for C7 as amended: no override, and no file anywhere. -/
theorem missing_bundle_still_starts_witness :
    (activate (hostWith none false) (contextAt "/ext") World.fresh).returned =
      JsValue.undefined ∧
    (∃ c : LanguageClient,
      (activate (hostWith none false) (contextAt "/ext") World.fresh).world.clients =
          World.fresh.clients ++ [c] ∧
        c.serverOptions.run.args =
          ["-jar", (contextAt "/ext").asAbsolutePath
            ((hostWith none false).path.join "server" "modelphy-lsp-server.jar")] ∧
        c.serverOptions.debug.args =
          ["-jar", (contextAt "/ext").asAbsolutePath
            ((hostWith none false).path.join "server" "modelphy-lsp-server.jar"),
           "--debug"]) ∧
    (activate (hostWith none false) (contextAt "/ext") World.fresh).world.client =
      some World.fresh.clients.length ∧
    (activate (hostWith none false) (contextAt "/ext") World.fresh).world.calls =
      World.fresh.calls ++ [Call.start World.fresh.clients.length] ∧
    (activate (hostWith none false) (contextAt "/ext") World.fresh).world.console =
      World.fresh.console ++
        [[LogArg.str "Server path:",
          LogArg.str ((contextAt "/ext").asAbsolutePath
            ((hostWith none false).path.join "server" "modelphy-lsp-server.jar"))],
         [LogArg.str "Server file exists:", LogArg.bool false],
         [LogArg.str "ModelPhy language server started"]] :=
  missing_bundle_still_starts (hostWith none false) (contextAt "/ext") World.fresh
    (Or.inl rfl) rfl

/-- C7 fails as stated: with no override configured and the bundled jar
`/ext/server/modelphy-lsp-server.jar` absent, `activate` reports nothing: it
returns `undefined` after constructing a client for the missing path,
storing it in the module variable and starting it. -/
theorem missing_bundle_no_failure :
    (hostWith none false).getConfiguration "modelphy" "server.path" = none ∧
    (hostWith none false).existsSync "/ext/server/modelphy-lsp-server.jar" = false ∧
    (activate (hostWith none false) (contextAt "/ext") World.fresh).returned =
      JsValue.undefined ∧
    (activate (hostWith none false) (contextAt "/ext") World.fresh).world.clients =
      [{ id := "modelphy"
         name := "ModelPhy Language Server"
         serverOptions :=
           { run :=
               { command := "java"
                 args := ["-jar", "/ext/server/modelphy-lsp-server.jar"]
                 cwd := "/ext/server"
                 transport := TransportKind.stdio }
             debug :=
               { command := "java"
                 args := ["-jar", "/ext/server/modelphy-lsp-server.jar", "--debug"]
                 cwd := "/ext/server"
                 transport := TransportKind.stdio } }
         clientOptions :=
           { documentSelector := [{ scheme := "file", language := "modelphy" }]
             fileEvents := 0 } }] ∧
    (activate (hostWith none false) (contextAt "/ext") World.fresh).world.client = some 0 ∧
    (activate (hostWith none false) (contextAt "/ext") World.fresh).world.calls =
      [Call.start 0] := by
  decide

/-- C8: the client that `activate` constructs has a document selector of
exactly one entry, scheme `file` and language `modelphy`; `activate` creates
exactly one file-system watcher, on the pattern `**/*.mphy`, and that
watcher is the client's `synchronize.fileEvents`; and on any other host and
context (any other configured server path) the client options and the
watchers come out the same. -/
theorem document_association (host : Host) (context : ExtensionContext) (w : World) :
    ∃ c : LanguageClient, (activate host context w).world.clients = w.clients ++ [c] ∧
      c.clientOptions.documentSelector = [{ scheme := "file", language := "modelphy" }] ∧
      (activate host context w).world.watchers = w.watchers ++ ["**/*.mphy"] ∧
      c.clientOptions.fileEvents = w.watchers.length ∧
      (activate host context w).world.watchers.get? c.clientOptions.fileEvents =
        some "**/*.mphy" ∧
      ∀ (host2 : Host) (context2 : ExtensionContext),
        (activate host2 context2 w).world.clients =
          w.clients ++ [{ c with serverOptions := serverOptions host2 (serverPath host2 context2) }] ∧
        (activate host2 context2 w).world.watchers = (activate host context w).world.watchers := by
  refine ⟨constructed host context w.watchers.length, activate_clients host context w, rfl, rfl,
    rfl, ?_, fun host2 context2 => ⟨rfl, rfl⟩⟩
  simp [activate_watchers, constructed]

/-- C9, as the code has it: `deactivate` never clears the module variable,
so after one `activate` each of two successive calls of `deactivate`
requests `stop` on the constructed client (two `stop` calls in all) and
returns the value of its own call; the module variable refers to that
client before, between and after the two calls. -/
theorem deactivate_twice (host : Host) (context : ExtensionContext) (w : World) :
    (deactivate (activate host context w).world).2.client = some w.clients.length ∧
    (deactivate (deactivate (activate host context w).world).2).2.client =
      some w.clients.length ∧
    (deactivate (deactivate (activate host context w).world).2).2.calls =
      (activate host context w).world.calls ++
        [Call.stop w.clients.length, Call.stop w.clients.length] ∧
    (deactivate (activate host context w).world).1 =
      JsValue.stopResult w.clients.length (callCount w.calls (Call.stop w.clients.length)) ∧
    (deactivate (deactivate (activate host context w).world).2).1 =
      JsValue.stopResult w.clients.length
        (callCount w.calls (Call.stop w.clients.length) + 1) := by
  have h1 := deactivate_of_client _ _ (activate_client host context w)
  have h2 : (deactivate (activate host context w).world).2.client = some w.clients.length := by
    rw [h1]
    rfl
  have h3 := deactivate_of_client _ _ h2
  refine ⟨h2, ?_, ?_, ?_, ?_⟩
  · rw [h3]
    exact h2
  · rw [h3]
    simp [h1]
  · rw [h1, activate_calls, callCount_snoc_start_stop]
  · rw [h3]
    simp only [h1, activate_calls, callCount_snoc_self, callCount_snoc_start_stop]

/-- C9 fails as stated: after one `activate` on the freshly loaded module
and one `deactivate`, a second `deactivate` is not a no-op: it changes the
state, by a second `stop` call on client `0`, and returns the value of that
second call. -/
theorem second_deactivate_stops_again :
    (deactivate (deactivate
      (activate (hostWith none true) (contextAt "/ext") World.fresh).world).2).2 ≠
      (deactivate (activate (hostWith none true) (contextAt "/ext") World.fresh).world).2 ∧
    (deactivate (activate (hostWith none true) (contextAt "/ext") World.fresh).world).2.calls =
      [Call.start 0, Call.stop 0] ∧
    (deactivate (deactivate
      (activate (hostWith none true) (contextAt "/ext") World.fresh).world).2).2.calls =
      [Call.start 0, Call.stop 0, Call.stop 0] ∧
    (deactivate (deactivate
      (activate (hostWith none true) (contextAt "/ext") World.fresh).world).2).1 =
      JsValue.stopResult 0 1 := by
  decide

/-- C10, as the code has it: there is one module variable for all
activations.  After activating on `contextA` and then on `contextB`, both
clients are constructed (the first on `hostA` and `contextA`, the second on
`hostB` and `contextB`), each was started once, the client of the first
activation is as that activation left it and each activation appended the
handle of its own client to its own context; but the module variable refers
to the second client only, so `deactivate` requests `stop` on the second
client and on no other. -/
theorem second_activation_takes_over (hostA hostB : Host) (contextA contextB : ExtensionContext)
    (w : World) :
    (activate hostA contextA w).world.client = some w.clients.length ∧
    (activate hostA contextA w).world.clients =
      w.clients ++ [constructed hostA contextA w.watchers.length] ∧
    (activate hostA contextA w).world.calls = w.calls ++ [Call.start w.clients.length] ∧
    (activate hostA contextA w).context.subscriptions =
      contextA.subscriptions ++
        [JsValue.startResult w.clients.length
          (callCount w.calls (Call.start w.clients.length))] ∧
    (activate hostB contextB (activate hostA contextA w).world).world.client =
      some (w.clients.length + 1) ∧
    (activate hostB contextB (activate hostA contextA w).world).world.clients =
      (activate hostA contextA w).world.clients ++
        [constructed hostB contextB (w.watchers.length + 1)] ∧
    (activate hostB contextB (activate hostA contextA w).world).world.clients =
      w.clients ++ [constructed hostA contextA w.watchers.length,
        constructed hostB contextB (w.watchers.length + 1)] ∧
    (activate hostB contextB (activate hostA contextA w).world).world.clients.get?
        w.clients.length =
      some (constructed hostA contextA w.watchers.length) ∧
    (activate hostB contextB (activate hostA contextA w).world).world.clients.get?
        (w.clients.length + 1) =
      some (constructed hostB contextB (w.watchers.length + 1)) ∧
    (activate hostB contextB (activate hostA contextA w).world).world.calls =
      w.calls ++ [Call.start w.clients.length, Call.start (w.clients.length + 1)] ∧
    (activate hostB contextB (activate hostA contextA w).world).context.subscriptions =
      contextB.subscriptions ++
        [JsValue.startResult (w.clients.length + 1)
          (callCount w.calls (Call.start (w.clients.length + 1)))] ∧
    (deactivate (activate hostB contextB (activate hostA contextA w).world).world).2.calls =
      (activate hostB contextB (activate hostA contextA w).world).world.calls ++
        [Call.stop (w.clients.length + 1)] ∧
    (deactivate (activate hostB contextB (activate hostA contextA w).world).world).2.calls =
      w.calls ++ [Call.start w.clients.length, Call.start (w.clients.length + 1),
        Call.stop (w.clients.length + 1)] ∧
    (deactivate (activate hostB contextB (activate hostA contextA w).world).world).1 =
      JsValue.stopResult (w.clients.length + 1)
        (callCount w.calls (Call.stop (w.clients.length + 1))) ∧
    (deactivate (activate hostB contextB (activate hostA contextA w).world).world).2.client =
      some (w.clients.length + 1) := by
  have hB := activate_client hostB contextB (activate hostA contextA w).world
  have hlen : (activate hostA contextA w).world.clients.length = w.clients.length + 1 := by
    simp [activate_clients]
  have hwat : (activate hostA contextA w).world.watchers.length = w.watchers.length + 1 := by
    simp [activate_watchers]
  rw [hlen] at hB
  have hd := deactivate_of_client _ _ hB
  have hcl : (activate hostB contextB (activate hostA contextA w).world).world.clients =
      w.clients ++ [constructed hostA contextA w.watchers.length,
        constructed hostB contextB (w.watchers.length + 1)] := by
    rw [activate_clients hostB, hwat, activate_clients hostA]
    simp
  have hcalls : (activate hostB contextB (activate hostA contextA w).world).world.calls =
      w.calls ++ [Call.start w.clients.length, Call.start (w.clients.length + 1)] := by
    rw [activate_calls hostB, hlen, activate_calls hostA]
    simp
  refine ⟨rfl, rfl, rfl, rfl, hB, ?_, hcl, ?_, ?_, hcalls, ?_, ?_, ?_, ?_, ?_⟩
  · rw [activate_clients hostB, hwat]
  · rw [hcl]
    exact lookup_append_pair_fst _ _ _
  · rw [hcl]
    exact lookup_append_pair_snd _ _ _
  · rw [activate_subscriptions hostB, hlen, activate_calls hostA, callCount_snoc_start_succ]
  · rw [hd]
  · rw [hd]
    simp [hcalls]
  · rw [hd, hcalls]
    simp [callCount, List.count_append]
  · rw [hd]
    exact hB

/-- C10 fails as stated: after activating the extension in `/extA` and then
the one in `/extB` on the freshly loaded module, the module variable that
held the first activation's client `0` holds client `1`, and shutdown stops
client `1` only: client `0` is never asked to stop. -/
theorem activations_share_client_variable :
    (activate (hostWith none true) (contextAt "/extA") World.fresh).world.client = some 0 ∧
    (activate (hostWith none true) (contextAt "/extA") World.fresh).context.subscriptions =
      [JsValue.startResult 0 0] ∧
    (activate (hostWith none true) (contextAt "/extB")
      (activate (hostWith none true) (contextAt "/extA") World.fresh).world).world.client =
      some 1 ∧
    (activate (hostWith none true) (contextAt "/extB")
      (activate (hostWith none true) (contextAt "/extA") World.fresh).world).world.client ≠
      (activate (hostWith none true) (contextAt "/extA") World.fresh).world.client ∧
    (deactivate (activate (hostWith none true) (contextAt "/extB")
      (activate (hostWith none true) (contextAt "/extA") World.fresh).world).world).2.calls =
      [Call.start 0, Call.start 1, Call.stop 1] ∧
    Call.stop 0 ∉ (deactivate (activate (hostWith none true) (contextAt "/extB")
      (activate (hostWith none true) (contextAt "/extA") World.fresh).world).world).2.calls := by
  decide

end ModelPhy
